import Mathlib

/-!
# Image Extractor front end (`static/app.js`): selection state and request orchestration

A shallow embedding of `static/app.js`.  The three module-level stores
(`selectedImages`, `allImages`, `currentHostname`) and the properties of the DOM
elements that the script reads or writes are the fields of `State`.  The two
`async` handlers are split at their suspension point (the `fetch`): a synchronous
prefix that decides whether a request is sent and a continuation that receives
the collaborator's outcome.  Requests sent and files delivered are returned as a
list of `Effect`s.

A JavaScript `Set` iterates in insertion order, so `selectedImages` is a list
without repetitions kept in insertion order.  The inner markup of an image card
(file name caption, thumbnail) is not tracked: no handler reads it back.

A session is a sequence of completed operations: each handler runs from its
start to its end before the next one starts.  Handlers overlapping at a
suspension point are outside this development.
-/

namespace ImageExtractor

/-! ## JavaScript primitives used by the script -/

/-- White space and line terminators removed by `String.prototype.trim`. -/
def isTrimChar (c : Char) : Bool :=
  let n := c.toNat
  n == 0x09 || n == 0x0A || n == 0x0B || n == 0x0C || n == 0x0D || n == 0x20 ||
  n == 0xA0 || n == 0x1680 || (0x2000 ≤ n && n ≤ 0x200A) || n == 0x2028 ||
  n == 0x2029 || n == 0x202F || n == 0x205F || n == 0x3000 || n == 0xFEFF

/-- Models `str.trim()`. -/
def trim (str : String) : String :=
  ⟨((str.data.dropWhile isTrimChar).reverse.dropWhile isTrimChar).reverse⟩

/-- Models `str.startsWith(search)`. -/
def startsWith (str search : String) : Bool :=
  search.data.isPrefixOf str.data

/-- Models `value || fallback` for a value that is a string or missing
(`undefined`): the empty string and `undefined` are the falsy cases. -/
def orDefault (value : Option String) (fallback : String) : String :=
  match value with
  | some v => if v = "" then fallback else v
  | none => fallback

/-- Models `Set.prototype.has`. -/
def setHas (set : List String) (x : String) : Bool :=
  set.contains x

/-- Models `Set.prototype.add`: a new member goes last, a present one stays in place. -/
def setAdd (set : List String) (x : String) : List String :=
  if setHas set x then set else set ++ [x]

/-- Models `Set.prototype.delete`. -/
def setDelete (set : List String) (x : String) : List String :=
  set.filter (fun y => y != x)

/-! ## State -/

/-- An element of class `image-card` in the grid: `dataset.url` and whether the
class list holds `selected`. -/
structure Card where
  url : String
  selected : Bool
deriving DecidableEq, Repr

/-- The stores of the script followed by the DOM properties it touches. -/
structure State where
  /-- Store `selectedImages`, members in insertion order. -/
  selectedImages : List String
  /-- Store `allImages`. -/
  allImages : List String
  /-- Store `currentHostname`. -/
  currentHostname : String
  /-- Text of `#error-message`. -/
  errorMessage : String
  /-- Whether `#results-section` has class `hidden`. -/
  resultsHidden : Bool
  /-- Text of `#results-count`. -/
  resultsCount : String
  /-- Children of `#image-grid`. -/
  imageGrid : List Card
  /-- Text of `#select-all-btn`. -/
  selectAllText : String
  /-- Property `disabled` of `#download-btn`. -/
  downloadDisabled : Bool
  /-- Whether `#download-btn` has class `loading`. -/
  downloadLoading : Bool
  /-- Text of the `.btn-text` child of `#download-btn`. -/
  downloadText : String
  /-- Whether `#loading-overlay` has class `hidden`. -/
  loadingHidden : Bool
  /-- Text of `.loading-text`. -/
  loadingText : String
  /-- Whether `#scrape-btn` has class `loading`. -/
  scrapeLoading : Bool
deriving DecidableEq, Repr

/-- Outcome of the scrape request as the handler observes it. -/
inductive ScrapeOutcome where
  /-- No response: `fetch` rejected with an error carrying `message`. -/
  | failed (message : String)
  /-- A response, with `response.ok` equal to `ok`, whose body is not JSON:
  `response.json()` rejected with an error carrying `message`. -/
  | unparsed (ok : Bool) (message : String)
  /-- A response with `response.ok` false and a JSON body with field `error`. -/
  | notOk (error : Option String)
  /-- A response with `response.ok` true and a JSON body with fields `images`,
  `hostname`. -/
  | ok (images : List String) (hostname : Option String)
deriving DecidableEq, Repr

/-- Outcome of the download request as the handler observes it. -/
inductive DownloadOutcome where
  /-- `fetch`, `response.json()` or `response.blob()` rejected with `message`. -/
  | failed (message : String)
  /-- A response with `response.ok` false and body field `error`. -/
  | notOk (error : Option String)
  /-- A response with `response.ok` true and the bytes of its body. -/
  | ok (payload : List Nat)
deriving DecidableEq, Repr

/-- What a handler does to the outside world. -/
inductive Effect where
  /-- `POST /api/scrape` with body `{ url }`. -/
  | postScrape (url : String)
  /-- `POST /api/download` with body `{ images, hostname }`. -/
  | postDownload (images : List String) (hostname : String)
  /-- Click on a temporary link with attribute `download = filename`. -/
  | saveFile (filename : String) (payload : List Nat)
deriving DecidableEq, Repr

/-! ## Helpers of the script -/

/-- Source function `showError`. -/
def showError (s : State) (message : String) : State :=
  { s with errorMessage := message }

/-- Source function `clearError`. -/
def clearError (s : State) : State :=
  { s with errorMessage := "" }

/-- Source function `setLoading`. -/
def setLoading (s : State) (isLoading : Bool) (message : String) : State :=
  if isLoading then { s with loadingText := message, loadingHidden := false }
  else { s with loadingHidden := true }

/-- Source function `updateDownloadButton`. -/
def updateDownloadButton (s : State) : State :=
  { s with
    downloadDisabled := s.selectedImages.length == 0
    downloadText :=
      if s.selectedImages.length > 0 then
        "Download Selected (" ++ toString s.selectedImages.length ++ ")"
      else "Download Selected" }

/-- The test `allSelected` computed in `updateSelectAllButton`. -/
def isAllSelected (s : State) : Bool :=
  s.selectedImages.length == s.allImages.length && s.allImages.length > 0

/-- Source function `updateSelectAllButton`. -/
def updateSelectAllButton (s : State) : State :=
  { s with selectAllText := if isAllSelected s then "Deselect All" else "Select All" }

/-- Source function `updateResultsCount`. -/
def updateResultsCount (s : State) : State :=
  { s with
    resultsCount :=
      toString s.allImages.length ++ " Image" ++
        (if s.allImages.length != 1 then "s" else "") ++ " Found" }

/-- Source function `renderImages`: the grid is emptied and receives one
unselected card per entry. -/
def renderImages (s : State) (images : List String) : State :=
  { s with imageGrid := images.map (fun imageUrl => { url := imageUrl, selected := false }) }

/-- Sets the class `selected` of the card at position `card`. -/
def setCardSelected (grid : List Card) (card : Nat) (value : Bool) : List Card :=
  grid.modify (fun c => { c with selected := value }) card

/-! ## Handlers -/

/-- Source function `toggleImageSelection`; `card` is the position in the grid
of the element passed as first argument. -/
def toggleImageSelection (s : State) (card : Nat) (imageUrl : String) : State :=
  let s1 :=
    if setHas s.selectedImages imageUrl then
      { s with
        selectedImages := setDelete s.selectedImages imageUrl
        imageGrid := setCardSelected s.imageGrid card false }
    else
      { s with
        selectedImages := setAdd s.selectedImages imageUrl
        imageGrid := setCardSelected s.imageGrid card true }
  updateSelectAllButton (updateDownloadButton s1)

/-- The click listener installed by `renderImages` on the card at position
`card`: it calls `toggleImageSelection` with that card and its own locator. -/
def clickCard (s : State) (card : Nat) : State :=
  match s.imageGrid.get? card with
  | some c => toggleImageSelection s card c.url
  | none => s

/-- Source function `handleSelectAll`. -/
def handleSelectAll (s : State) : State :=
  let allSelected := s.selectedImages.length == s.allImages.length
  let s1 :=
    if allSelected then
      { s with
        selectedImages := []
        imageGrid := s.imageGrid.map (fun c => { c with selected := false }) }
    else
      { s with
        selectedImages := s.allImages.foldl setAdd s.selectedImages
        imageGrid := s.imageGrid.map (fun c => { c with selected := true }) }
  updateSelectAllButton (updateDownloadButton s1)

/-- Part of `handleScrape` before `fetch`: the state at the early return, or the
state when the request is issued together with the URL sent. -/
def scrapeStart (s : State) (rawUrl : String) : State ⊕ (State × String) :=
  let url := trim rawUrl
  if url = "" then
    Sum.inl (showError s "Please enter a URL")
  else
    let finalUrl :=
      if !startsWith url "http://" && !startsWith url "https://" then "https://" ++ url
      else url
    let s1 := setLoading (clearError s) true "Scanning for images..."
    Sum.inr ({ s1 with scrapeLoading := true }, finalUrl)

/-- Part of `handleScrape` after `fetch`: the `try` body from the response on,
the `catch` and the `finally`.  The body is parsed before `response.ok` is
looked at, so a body that is not JSON ends in the `catch` whatever the status. -/
def scrapeResume (s : State) (outcome : ScrapeOutcome) : State :=
  let s1 :=
    match outcome with
    | .failed message => showError s message
    | .unparsed _ message => showError s message
    | .notOk error => showError s (orDefault error "Failed to scrape images")
    | .ok images hostname =>
      if images.length == 0 then
        { showError s "No images found on this page" with resultsHidden := true }
      else
        let s2 :=
          { s with
            allImages := images
            currentHostname := orDefault hostname "images"
            selectedImages := [] }
        updateResultsCount { renderImages s2 images with resultsHidden := false }
  { setLoading s1 false "" with scrapeLoading := false }

/-- Source function `handleScrape`, for the text `rawUrl` of `#url-input` and
the outcome of the request. -/
def handleScrape (s : State) (rawUrl : String) (outcome : ScrapeOutcome) :
    State × List Effect :=
  match scrapeStart s rawUrl with
  | Sum.inl s1 => (s1, [])
  | Sum.inr (s1, finalUrl) => (scrapeResume s1 outcome, [Effect.postScrape finalUrl])

/-- Part of `handleDownload` before `fetch`: `none` at the early return, or the
state when the request is issued together with the request body. -/
def downloadStart (s : State) : Option (State × List String × String) :=
  if s.selectedImages.length == 0 then none
  else
    let s1 := { s with downloadLoading := true, downloadDisabled := true }
    let s2 := setLoading s1 true
      ("Downloading " ++ toString s.selectedImages.length ++ " images...")
    some (s2, s.selectedImages, s.currentHostname)

/-- Part of `handleDownload` after `fetch`. -/
def downloadResume (s : State) (outcome : DownloadOutcome) : State × List Effect :=
  let r : State × List Effect :=
    match outcome with
    | .failed message => (showError s message, [])
    | .notOk error => (showError s (orDefault error "Failed to download images"), [])
    | .ok payload =>
      (s, [Effect.saveFile ("images_" ++ s.currentHostname ++ ".zip") payload])
  (setLoading { r.1 with downloadLoading := false, downloadDisabled := false } false "", r.2)

/-- Source function `handleDownload`, for the outcome of the request. -/
def handleDownload (s : State) (outcome : DownloadOutcome) : State × List Effect :=
  match downloadStart s with
  | none => (s, [])
  | some (s1, images, hostname) =>
    let r := downloadResume s1 outcome
    (r.1, Effect.postDownload images hostname :: r.2)

/-! ## Sessions -/

/-- Modelled from the spec: the page markup `index.html` is not among the
sources, so the DOM part of the first state follows the specification (no
error, results hidden, empty grid, download control disabled and labelled
`Download Selected`, loading indicator hidden); the three stores are the
initialisers at the top of `app.js`. -/
def initialState : State :=
  { selectedImages := []
    allImages := []
    currentHostname := "images"
    errorMessage := ""
    resultsHidden := true
    resultsCount := ""
    imageGrid := []
    selectAllText := "Select All"
    downloadDisabled := true
    downloadLoading := false
    downloadText := "Download Selected"
    loadingHidden := true
    loadingText := ""
    scrapeLoading := false }

/-- A completed user-triggered operation. -/
inductive Op where
  /-- Scrape with `rawUrl` typed in the input, answered by `outcome`. -/
  | scrape (rawUrl : String) (outcome : ScrapeOutcome)
  /-- Click on the card at position `card` of the grid. -/
  | toggle (card : Nat)
  /-- Click on the select-all control. -/
  | selectAll
  /-- Click on the download control, answered by `outcome`. -/
  | download (outcome : DownloadOutcome)
deriving DecidableEq, Repr

/-- State after one operation. -/
def step (s : State) (op : Op) : State :=
  match op with
  | .scrape rawUrl outcome => (handleScrape s rawUrl outcome).1
  | .toggle card => clickCard s card
  | .selectAll => handleSelectAll s
  | .download outcome => (handleDownload s outcome).1

/-- State after a sequence of operations. -/
def run (s : State) (ops : List Op) : State :=
  ops.foldl step s


/-! ## Sessions used as examples -/

/-- A scrape answered with the same locator twice. -/
def duplicateSession : List Op :=
  [Op.scrape "x.test" (.ok ["a", "a"] (some "x"))]

/-- A scrape answered with `a, b`, then `b` selected before `a`. -/
def reversedSession : List Op :=
  [Op.scrape "x.test" (.ok ["a", "b"] (some "x")), Op.toggle 1, Op.toggle 0]

/-- A scrape answered with `a, b, c`, then `c` selected before `a`. -/
def outOfOrderSession : List Op :=
  [Op.scrape "x.test" (.ok ["a", "b", "c"] (some "x")), Op.toggle 2, Op.toggle 0]

/-- A scrape answered with `a`, `a` selected, then a scrape answered with `b`. -/
def rescrapeSession : List Op :=
  [Op.scrape "x.test" (.ok ["a"] (some "x")), Op.toggle 0,
    Op.scrape "x.test" (.ok ["b"] (some "x"))]

/-- A scrape answered with `a`, `a` selected, then a scrape answered with no image. -/
def emptyRescrapeSession : List Op :=
  [Op.scrape "x.test" (.ok ["a"] (some "x")), Op.toggle 0,
    Op.scrape "x.test" (.ok [] (some "x"))]

/-- The download control mirrors the selection: enabled exactly when the
selection is not empty, labelled with the size of the selection when it is
not zero. -/
def Mirrors (s : State) : Prop :=
  s.downloadDisabled = (s.selectedImages.length == 0) ∧
  s.downloadText =
    (if s.selectedImages.length > 0 then
      "Download Selected (" ++ toString s.selectedImages.length ++ ")"
    else "Download Selected")

instance (s : State) : Decidable (Mirrors s) := by
  unfold Mirrors
  infer_instance

/-- Consistency of a state: the selection has no repeated member, every member
is discovered, and the grid shows the discovery list. -/
structure Consistent (s : State) : Prop where
  nodup : s.selectedImages.Nodup
  subset : s.selectedImages ⊆ s.allImages
  grid : s.imageGrid.map Card.url = s.allImages

/-! ## Lemmas on the set operations -/

theorem setHas_iff (set : List String) (x : String) : setHas set x = true ↔ x ∈ set := by
  simp [setHas]

theorem mem_setAdd (set : List String) (x y : String) :
    y ∈ setAdd set x ↔ y ∈ set ∨ y = x := by
  unfold setAdd
  by_cases h : setHas set x = true
  · have hx : x ∈ set := (setHas_iff set x).1 h
    simp only [h, if_true]
    constructor
    · exact Or.inl
    · rintro (h1 | rfl)
      · exact h1
      · exact hx
  · simp [h]

theorem nodup_setAdd (set : List String) (x : String) (h : set.Nodup) :
    (setAdd set x).Nodup := by
  unfold setAdd
  by_cases hx : setHas set x = true
  · simpa [hx] using h
  · have hx2 : x ∉ set := fun hm => hx ((setHas_iff set x).2 hm)
    simp only [hx, Bool.false_eq_true, if_false]
    exact List.Nodup.append h (List.nodup_singleton x) (by simpa using hx2)

theorem mem_setDelete (set : List String) (x y : String) :
    y ∈ setDelete set x ↔ y ∈ set ∧ y ≠ x := by
  simp [setDelete]

theorem nodup_setDelete (set : List String) (x : String) (h : set.Nodup) :
    (setDelete set x).Nodup :=
  h.filter _

theorem setDelete_of_not_mem (set : List String) (x : String) (h : x ∉ set) :
    setDelete set x = set := by
  unfold setDelete
  rw [List.filter_eq_self]
  intro a ha
  have : a ≠ x := fun e => h (e ▸ ha)
  simpa using this

theorem mem_foldl_setAdd (xs set : List String) (y : String) :
    y ∈ xs.foldl setAdd set ↔ y ∈ set ∨ y ∈ xs := by
  induction xs generalizing set with
  | nil => simp
  | cons x xs ih =>
    simp only [List.foldl_cons, ih, mem_setAdd, List.mem_cons]
    tauto

theorem nodup_foldl_setAdd (xs set : List String) (h : set.Nodup) :
    (xs.foldl setAdd set).Nodup := by
  induction xs generalizing set with
  | nil => simpa using h
  | cons x xs ih => exact ih _ (nodup_setAdd set x h)

theorem map_url_setCardSelected (grid : List Card) (card : Nat) (value : Bool) :
    (setCardSelected grid card value).map Card.url = grid.map Card.url := by
  unfold setCardSelected
  induction grid generalizing card with
  | nil => cases card <;> rfl
  | cons c cs ih =>
    cases card with
    | zero => rfl
    | succ n => simp only [List.modify_succ_cons, List.map_cons, ih]

/-! ## The invariant of the stores -/

theorem consistent_initialState : Consistent initialState :=
  ⟨List.nodup_nil, List.nil_subset _, rfl⟩

theorem consistent_toggleImageSelection (s : State) (card : Nat) (imageUrl : String)
    (h : Consistent s) (hmem : imageUrl ∈ s.allImages) :
    Consistent (toggleImageSelection s card imageUrl) := by
  unfold toggleImageSelection
  by_cases hx : setHas s.selectedImages imageUrl = true
  · simp only [hx, if_true]
    refine ⟨nodup_setDelete _ _ h.nodup, ?_, ?_⟩
    · intro y hy
      exact h.subset ((mem_setDelete _ _ _).1 hy).1
    · simpa [updateSelectAllButton, updateDownloadButton, map_url_setCardSelected] using h.grid
  · simp only [hx, Bool.false_eq_true, if_false]
    refine ⟨nodup_setAdd _ _ h.nodup, ?_, ?_⟩
    · intro y hy
      rcases (mem_setAdd _ _ _).1 hy with h1 | rfl
      · exact h.subset h1
      · exact hmem
    · simpa [updateSelectAllButton, updateDownloadButton, map_url_setCardSelected] using h.grid

theorem consistent_clickCard (s : State) (card : Nat) (h : Consistent s) :
    Consistent (clickCard s card) := by
  unfold clickCard
  cases hc : s.imageGrid.get? card with
  | none => exact h
  | some c =>
    have hm : c ∈ s.imageGrid := List.get?_mem hc
    have : c.url ∈ s.allImages := by
      rw [← h.grid]
      exact List.mem_map_of_mem _ hm
    exact consistent_toggleImageSelection s card c.url h this

theorem consistent_handleSelectAll (s : State) (h : Consistent s) :
    Consistent (handleSelectAll s) := by
  unfold handleSelectAll
  by_cases hx : (s.selectedImages.length == s.allImages.length) = true
  · simp only [hx, if_true]
    refine ⟨List.nodup_nil, List.nil_subset _, ?_⟩
    simpa [updateSelectAllButton, updateDownloadButton, Function.comp_def] using h.grid
  · simp only [hx, Bool.false_eq_true, if_false]
    refine ⟨nodup_foldl_setAdd _ _ h.nodup, ?_, ?_⟩
    · intro y hy
      rcases (mem_foldl_setAdd _ _ _).1 hy with h1 | h1
      · exact h.subset h1
      · exact h1
    · simpa [updateSelectAllButton, updateDownloadButton, Function.comp_def] using h.grid

theorem consistent_handleScrape (s : State) (rawUrl : String) (outcome : ScrapeOutcome)
    (h : Consistent s) : Consistent (handleScrape s rawUrl outcome).1 := by
  unfold handleScrape scrapeStart
  by_cases hu : trim rawUrl = ""
  · simp only [hu, if_true]
    exact ⟨h.nodup, h.subset, h.grid⟩
  · simp only [hu, if_false]
    cases outcome with
    | failed message => exact ⟨h.nodup, h.subset, h.grid⟩
    | unparsed ok message => exact ⟨h.nodup, h.subset, h.grid⟩
    | notOk error => exact ⟨h.nodup, h.subset, h.grid⟩
    | ok images hostname =>
      by_cases hi : (images.length == 0) = true
      · simp only [scrapeResume, hi, if_true]
        exact ⟨h.nodup, h.subset, h.grid⟩
      · simp only [scrapeResume, hi, Bool.false_eq_true, if_false]
        refine ⟨List.nodup_nil, List.nil_subset _, ?_⟩
        simp [updateResultsCount, renderImages, setLoading, Function.comp_def]

theorem consistent_handleDownload (s : State) (outcome : DownloadOutcome)
    (h : Consistent s) : Consistent (handleDownload s outcome).1 := by
  unfold handleDownload downloadStart
  by_cases hz : (s.selectedImages.length == 0) = true
  · simp only [hz, if_true]
    exact h
  · simp only [hz, Bool.false_eq_true, if_false]
    cases outcome <;> exact ⟨h.nodup, h.subset, h.grid⟩

theorem consistent_step (s : State) (op : Op) (h : Consistent s) : Consistent (step s op) := by
  cases op with
  | scrape rawUrl outcome => exact consistent_handleScrape s rawUrl outcome h
  | toggle card => exact consistent_clickCard s card h
  | selectAll => exact consistent_handleSelectAll s h
  | download outcome => exact consistent_handleDownload s outcome h

theorem consistent_run (s : State) (ops : List Op) (h : Consistent s) :
    Consistent (run s ops) := by
  induction ops generalizing s with
  | nil => exact h
  | cons op ops ih => exact ih (step s op) (consistent_step s op h)

/-! ## Claims -/

/-- C1: starting from the initial state, after every finite sequence of
operations (a scrape in any outcome, a click on a card of the rendered grid,
select-all, a download in any outcome) every member of `selectedImages` is an
element of `allImages`. -/
theorem selection_subset_discovery (ops : List Op) :
    (run initialState ops).selectedImages ⊆ (run initialState ops).allImages :=
  (consistent_run initialState ops consistent_initialState).subset

/-- C2: two successive calls of `toggleImageSelection` for a locator `L` (of
`allImages` or not) leave `selectedImages` with the same members as before,
whether `L` was selected or not.  When `L` was not selected the list is the
very same; when the selection has no repeated member, as a `Set` has none, it
is a rearrangement of the former one, so the size is the same too. -/
theorem toggle_twice_restores_selection (s : State) (card card2 : Nat) (L : String) :
    (∀ x, x ∈ (toggleImageSelection (toggleImageSelection s card L) card2 L).selectedImages ↔
      x ∈ s.selectedImages) ∧
    (s.selectedImages.Nodup →
      (toggleImageSelection (toggleImageSelection s card L) card2 L).selectedImages.Perm
        s.selectedImages) ∧
    (L ∉ s.selectedImages →
      (toggleImageSelection (toggleImageSelection s card L) card2 L).selectedImages =
        s.selectedImages) := by
  have key : (toggleImageSelection (toggleImageSelection s card L) card2 L).selectedImages =
      if setHas s.selectedImages L then setDelete s.selectedImages L ++ [L]
      else s.selectedImages := by
    by_cases hx : setHas s.selectedImages L = true
    · have h1 : setHas (setDelete s.selectedImages L) L = false := by
        simp [setHas, setDelete]
      simp [toggleImageSelection, hx, h1, updateSelectAllButton, updateDownloadButton, setAdd]
    · have hx2 : L ∉ s.selectedImages := fun hm => hx ((setHas_iff _ _).2 hm)
      have h1 : setHas (setAdd s.selectedImages L) L = true :=
        (setHas_iff _ _).2 ((mem_setAdd _ _ _).2 (Or.inr rfl))
      have h2 : setDelete (setAdd s.selectedImages L) L = s.selectedImages := by
        have hx3 : setHas s.selectedImages L = false := by simpa using hx
        simp only [setAdd, hx3, Bool.false_eq_true, if_false, setDelete, List.filter_append]
        have := setDelete_of_not_mem _ _ hx2
        unfold setDelete at this
        simp [this]
      simp [toggleImageSelection, hx, h1, h2, updateSelectAllButton, updateDownloadButton]
  rw [key]
  by_cases hx : setHas s.selectedImages L = true
  · have hm : L ∈ s.selectedImages := (setHas_iff _ _).1 hx
    simp only [hx, if_true]
    refine ⟨?_, ?_, fun hn => absurd hm hn⟩
    · intro x
      by_cases hxL : x = L
      · subst hxL
        simp [hm]
      · simp [mem_setDelete, hxL]
    · intro hs
      have e : setDelete s.selectedImages L = s.selectedImages.erase L := by
        unfold setDelete
        exact (hs.erase_eq_filter L).symm
      rw [e]
      exact (List.perm_append_comm.trans (List.perm_cons_erase hm).symm)
  · simp [hx]

/-- Witness for C2: discovery `a, b` with `a` selected, `a` toggled twice. -/
theorem toggle_twice_restores_selection_witness :
    (run initialState
      [Op.scrape "x.test" (.ok ["a", "b"] (some "x")), Op.toggle 0]).selectedImages.Nodup ∧
    (toggleImageSelection (toggleImageSelection
        (run initialState [Op.scrape "x.test" (.ok ["a", "b"] (some "x")), Op.toggle 0])
        0 "a") 0 "a").selectedImages.Perm
      (run initialState
        [Op.scrape "x.test" (.ok ["a", "b"] (some "x")), Op.toggle 0]).selectedImages :=
  ⟨by decide,
    (toggle_twice_restores_selection
      (run initialState [Op.scrape "x.test" (.ok ["a", "b"] (some "x")), Op.toggle 0])
      0 0 "a").2.1 (by decide)⟩

/-- State in which `handleScrape` resumes once a request has been sent. -/
theorem handleScrape_sent (s : State) (rawUrl : String) (outcome : ScrapeOutcome)
    (hurl : trim rawUrl ≠ "") :
    handleScrape s rawUrl outcome =
      (scrapeResume
        { setLoading (clearError s) true "Scanning for images..." with scrapeLoading := true }
        outcome,
       [Effect.postScrape
          (if !startsWith (trim rawUrl) "http://" && !startsWith (trim rawUrl) "https://"
           then "https://" ++ trim rawUrl else trim rawUrl)]) := by
  simp [handleScrape, scrapeStart, hurl]

/-- C3: a success response with a non-empty image list `I` and hostname `h`
makes `allImages` equal to `I`, empties `selectedImages`, sets
`currentHostname` to `h` (to `images` when `h` is missing or empty) and sets
the results count to `<n> Images Found`, or `1 Image Found` when `n = 1`. -/
theorem scrape_success_replaces_discovery (s : State) (rawUrl : String) (I : List String)
    (h : Option String) (hurl : trim rawUrl ≠ "") (hI : I ≠ []) :
    (handleScrape s rawUrl (.ok I h)).1.allImages = I ∧
    (handleScrape s rawUrl (.ok I h)).1.selectedImages = [] ∧
    (handleScrape s rawUrl (.ok I h)).1.currentHostname =
      (match h with
       | some v => if v = "" then "images" else v
       | none => "images") ∧
    (handleScrape s rawUrl (.ok I h)).1.resultsCount =
      (if I.length = 1 then "1 Image Found" else toString I.length ++ " Images Found") := by
  have hlen : (I.length == 0) = false := by
    cases I with
    | nil => exact absurd rfl hI
    | cons a l => rfl
  rw [handleScrape_sent s rawUrl _ hurl]
  simp only [scrapeResume, hlen, Bool.false_eq_true, if_false, setLoading, updateResultsCount,
    renderImages, true_and]
  refine ⟨?_, ?_⟩
  · cases h <;> rfl
  · by_cases h1 : I.length = 1
    · simp only [h1, if_true]
      decide
    · have h2 : (I.length != 1) = true := by simpa using h1
      simp only [h1, h2, if_true, if_false]
      rw [String.append_assoc, String.append_assoc]
      rfl

/-- Witness for C3: the response `a.png, b.png` with hostname `x`. -/
theorem scrape_success_replaces_discovery_witness :
    trim "example.com" ≠ "" ∧ ["https://x/a.png", "https://x/b.png"] ≠ [] ∧
    (handleScrape initialState "example.com"
      (.ok ["https://x/a.png", "https://x/b.png"] (some "x"))).1.allImages =
        ["https://x/a.png", "https://x/b.png"] ∧
    (handleScrape initialState "example.com"
      (.ok ["https://x/a.png", "https://x/b.png"] (some "x"))).1.resultsCount =
        "2 Images Found" :=
  ⟨by decide, by decide,
    (scrape_success_replaces_discovery initialState "example.com"
      ["https://x/a.png", "https://x/b.png"] (some "x") (by decide) (by decide)).1,
    (scrape_success_replaces_discovery initialState "example.com"
      ["https://x/a.png", "https://x/b.png"] (some "x") (by decide) (by decide)).2.2.2⟩

/-- C6, as stated, fails in case (b): a non-success response that provides no
error string because its body is not JSON does not give the fallback text.
The body is parsed before the status is looked at, the parser rejects, and the
error text is the message of the parser.  So it is not true that every
non-success response gives the error string of the service or the fallback. -/
theorem scrape_unparsed_body_counterexample :
    (handleScrape initialState "x.test"
      (.unparsed false "Unexpected end of JSON input")).2 =
        [Effect.postScrape "https://x.test"] ∧
    (handleScrape initialState "x.test"
      (.unparsed false "Unexpected end of JSON input")).1.errorMessage =
        "Unexpected end of JSON input" ∧
    (handleScrape initialState "x.test"
      (.unparsed false "Unexpected end of JSON input")).1.errorMessage ≠
        "Failed to scrape images" ∧
    ¬ ∀ (s : State) (rawUrl : String) (outcome : ScrapeOutcome), trim rawUrl ≠ "" →
      ((∃ message, outcome = .unparsed false message) ∨ outcome = .notOk none →
        (handleScrape s rawUrl outcome).1.errorMessage = "Failed to scrape images") := by
  refine ⟨by decide, by decide, by decide, ?_⟩
  intro h
  have h1 := h initialState "x.test" (.unparsed false "Unexpected end of JSON input")
    (by decide) (Or.inl ⟨_, rfl⟩)
  revert h1
  decide

/-- C6, amended: a scrape whose outcome is a success with an empty list, a
non-success response, a transport failure or a body that is not JSON leaves
`allImages`, `selectedImages` and `currentHostname` as they were; the error
text is `No images found on this page` for the empty list, for a non-success
response with a JSON body the error string of the service
(`Failed to scrape images` when that string is missing or empty), and the
message of the failure for a transport failure and for a response, of either
status, whose body is not JSON. -/
theorem scrape_without_result_keeps_stores (s : State) (rawUrl : String)
    (outcome : ScrapeOutcome) (hout : ∀ I host, outcome = .ok I host → I = []) :
    (handleScrape s rawUrl outcome).1.allImages = s.allImages ∧
    (handleScrape s rawUrl outcome).1.selectedImages = s.selectedImages ∧
    (handleScrape s rawUrl outcome).1.currentHostname = s.currentHostname ∧
    (trim rawUrl ≠ "" →
      (∀ host, outcome = .ok [] host →
        (handleScrape s rawUrl outcome).1.errorMessage = "No images found on this page") ∧
      (∀ e, outcome = .notOk (some e) → e ≠ "" →
        (handleScrape s rawUrl outcome).1.errorMessage = e) ∧
      (outcome = .notOk none ∨ outcome = .notOk (some "") →
        (handleScrape s rawUrl outcome).1.errorMessage = "Failed to scrape images") ∧
      (∀ message, outcome = .failed message →
        (handleScrape s rawUrl outcome).1.errorMessage = message) ∧
      (∀ ok message, outcome = .unparsed ok message →
        (handleScrape s rawUrl outcome).1.errorMessage = message)) := by
  by_cases hurl : trim rawUrl = ""
  · simp [handleScrape, scrapeStart, hurl, showError]
  · rw [handleScrape_sent s rawUrl outcome hurl]
    cases outcome with
    | failed message =>
      simp [scrapeResume, showError, setLoading, clearError]
    | unparsed ok message =>
      simp [scrapeResume, showError, setLoading, clearError]
    | notOk error =>
      refine ⟨rfl, rfl, rfl, fun _ => ⟨?_, ?_, ?_, ?_, ?_⟩⟩
      · intro host hh
        cases hh
      · intro e he hne
        cases he
        simp [scrapeResume, showError, setLoading, orDefault, hne]
      · rintro (he | he) <;> cases he <;> rfl
      · intro message hm
        cases hm
      · intro ok message hm
        cases hm
    | ok images hostname =>
      have hi : images = [] := hout images hostname rfl
      subst hi
      simp [scrapeResume, showError, setLoading, clearError]

/-- Witness for C6: a non-success response whose body is not JSON, answered to
a session with one selected image. -/
theorem scrape_without_result_keeps_stores_witness :
    (∀ I host, ScrapeOutcome.unparsed false "Unexpected end of JSON input" = .ok I host →
      I = []) ∧
    trim "x.test" ≠ "" ∧
    (handleScrape
      (run initialState [Op.scrape "x.test" (.ok ["a", "b"] (some "x")), Op.toggle 0])
      "x.test" (.unparsed false "Unexpected end of JSON input")).1.allImages = ["a", "b"] ∧
    (handleScrape
      (run initialState [Op.scrape "x.test" (.ok ["a", "b"] (some "x")), Op.toggle 0])
      "x.test" (.unparsed false "Unexpected end of JSON input")).1.selectedImages = ["a"] ∧
    (handleScrape
      (run initialState [Op.scrape "x.test" (.ok ["a", "b"] (some "x")), Op.toggle 0])
      "x.test" (.unparsed false "Unexpected end of JSON input")).1.errorMessage =
        "Unexpected end of JSON input" :=
  ⟨fun _ _ h => ScrapeOutcome.noConfusion h, by decide,
    (scrape_without_result_keeps_stores
      (run initialState [Op.scrape "x.test" (.ok ["a", "b"] (some "x")), Op.toggle 0])
      "x.test" (.unparsed false "Unexpected end of JSON input")
      (fun _ _ h => ScrapeOutcome.noConfusion h)).1,
    (scrape_without_result_keeps_stores
      (run initialState [Op.scrape "x.test" (.ok ["a", "b"] (some "x")), Op.toggle 0])
      "x.test" (.unparsed false "Unexpected end of JSON input")
      (fun _ _ h => ScrapeOutcome.noConfusion h)).2.1,
    ((scrape_without_result_keeps_stores
      (run initialState [Op.scrape "x.test" (.ok ["a", "b"] (some "x")), Op.toggle 0])
      "x.test" (.unparsed false "Unexpected end of JSON input")
      (fun _ _ h => ScrapeOutcome.noConfusion h)).2.2.2 (by decide)).2.2.2.2
        false "Unexpected end of JSON input" rfl⟩

theorem startsWith_append (p t : String) : startsWith (p ++ t) p = true := by
  simp [startsWith, String.data_append]

/-- C7: with `t` the trimmed input, an empty `t` sends no request, sets the
error text to `Please enter a URL` and changes nothing else (stores and loading
indicator included); a non-empty `t` sends exactly one scrape request, for `t`
itself when `t` starts with `http://` or `https://` and for `https://` followed
by `t` otherwise, so the URL sent always starts with one of the two schemes. -/
theorem scrape_url_validation (s : State) (r : String) (outcome : ScrapeOutcome) :
    (trim r = "" →
      (handleScrape s r outcome).2 = [] ∧
      (handleScrape s r outcome).1 = { s with errorMessage := "Please enter a URL" }) ∧
    (trim r ≠ "" →
      (handleScrape s r outcome).2 =
        [Effect.postScrape
          (if startsWith (trim r) "http://" = true ∨ startsWith (trim r) "https://" = true
           then trim r else "https://" ++ trim r)] ∧
      ∀ u, Effect.postScrape u ∈ (handleScrape s r outcome).2 →
        startsWith u "http://" = true ∨ startsWith u "https://" = true) := by
  constructor
  · intro hurl
    simp [handleScrape, scrapeStart, hurl, showError]
  · intro hurl
    rw [handleScrape_sent s r outcome hurl]
    by_cases h1 : startsWith (trim r) "http://" = true
    · simp [h1]
    · by_cases h2 : startsWith (trim r) "https://" = true
      · simp [h2]
      · simp [h1, h2, startsWith_append]

/-- Witness for C7: the input `example.com` is sent as `https://example.com`. -/
theorem scrape_url_validation_witness :
    trim " example.com " ≠ "" ∧
    (handleScrape initialState " example.com " (.failed "offline")).2 =
      [Effect.postScrape "https://example.com"] :=
  ⟨by decide,
    ((scrape_url_validation initialState " example.com " (.failed "offline")).2
      (by decide)).1⟩

/-- State and effects of `handleDownload` once the guard is passed. -/
theorem handleDownload_sent (s : State) (outcome : DownloadOutcome)
    (hsel : s.selectedImages ≠ []) :
    handleDownload s outcome =
      ((downloadResume
          (setLoading { s with downloadLoading := true, downloadDisabled := true } true
            ("Downloading " ++ toString s.selectedImages.length ++ " images..."))
          outcome).1,
       Effect.postDownload s.selectedImages s.currentHostname ::
        (downloadResume
          (setLoading { s with downloadLoading := true, downloadDisabled := true } true
            ("Downloading " ++ toString s.selectedImages.length ++ " images..."))
          outcome).2) := by
  have hlen : (s.selectedImages.length == 0) = false := by
    cases hs : s.selectedImages with
    | nil => exact absurd hs hsel
    | cons a l => rfl
  simp [handleDownload, downloadStart, hlen]

/-- C8: with a non-empty selection, a non-success answer with body field
`error` equal to `e` sets the error text to `e` (to `Failed to download images`
when `e` is missing or empty), delivers no file (the only effect is the
request), leaves `allImages`, `selectedImages` and `currentHostname` as they
were, re-enables the download control and hides the loading indicator. -/
theorem download_failure_surfaced (s : State) (e : Option String)
    (hsel : s.selectedImages ≠ []) :
    (handleDownload s (.notOk e)).1.errorMessage =
      (match e with
       | some v => if v = "" then "Failed to download images" else v
       | none => "Failed to download images") ∧
    (handleDownload s (.notOk e)).2 =
      [Effect.postDownload s.selectedImages s.currentHostname] ∧
    (∀ filename payload, Effect.saveFile filename payload ∉ (handleDownload s (.notOk e)).2) ∧
    (handleDownload s (.notOk e)).1.allImages = s.allImages ∧
    (handleDownload s (.notOk e)).1.selectedImages = s.selectedImages ∧
    (handleDownload s (.notOk e)).1.currentHostname = s.currentHostname ∧
    (handleDownload s (.notOk e)).1.downloadDisabled = false ∧
    (handleDownload s (.notOk e)).1.downloadLoading = false ∧
    (handleDownload s (.notOk e)).1.loadingHidden = true := by
  rw [handleDownload_sent s _ hsel]
  refine ⟨?_, rfl, ?_, rfl, rfl, rfl, rfl, rfl, rfl⟩
  · cases e <;> rfl
  · intro filename payload hmem
    simp [downloadResume] at hmem

/-- Witness for C8: the answer `disk full` to a download of one selected image. -/
theorem download_failure_surfaced_witness :
    (run initialState
      [Op.scrape "x.test" (.ok ["https://x/a.png"] (some "x")), Op.toggle 0]).selectedImages
        ≠ [] ∧
    (handleDownload
      (run initialState [Op.scrape "x.test" (.ok ["https://x/a.png"] (some "x")), Op.toggle 0])
      (.notOk (some "disk full"))).1.errorMessage = "disk full" ∧
    (handleDownload
      (run initialState [Op.scrape "x.test" (.ok ["https://x/a.png"] (some "x")), Op.toggle 0])
      (.notOk (some "disk full"))).1.downloadDisabled = false :=
  ⟨by decide,
    (download_failure_surfaced
      (run initialState [Op.scrape "x.test" (.ok ["https://x/a.png"] (some "x")), Op.toggle 0])
      (some "disk full") (by decide)).1,
    (download_failure_surfaced
      (run initialState [Op.scrape "x.test" (.ok ["https://x/a.png"] (some "x")), Op.toggle 0])
      (some "disk full") (by decide)).2.2.2.2.2.2.1⟩

/-- After the select-all branch on a consistent state whose discovery list has
no repeated locator, the selection is a rearrangement of the discovery list. -/
theorem perm_foldl_setAdd (s : State) (h : Consistent s) (hnd : s.allImages.Nodup) :
    (s.allImages.foldl setAdd s.selectedImages).Perm s.allImages := by
  refine (List.perm_ext_iff_of_nodup (nodup_foldl_setAdd _ _ h.nodup) hnd).2 ?_
  intro a
  rw [mem_foldl_setAdd]
  constructor
  · rintro (h1 | h1)
    · exact h.subset h1
    · exact h1
  · exact Or.inr

theorem select_all_consistent (s : State) (h : Consistent s) (hne : s.allImages ≠ [])
    (hnd : s.allImages.Nodup) (hnot : s.selectedImages.length ≠ s.allImages.length) :
    isAllSelected (handleSelectAll s) = true ∧
    (handleSelectAll s).selectAllText = "Deselect All" ∧
    (handleSelectAll s).selectedImages.Perm s.allImages := by
  have hb : (s.selectedImages.length == s.allImages.length) = false := by simpa using hnot
  have hp := perm_foldl_setAdd s h hnd
  have hpos : 0 < s.allImages.length := List.length_pos.2 hne
  have hall : isAllSelected (handleSelectAll s) = true := by
    simp [handleSelectAll, hb, isAllSelected, updateSelectAllButton, updateDownloadButton,
      hp.length_eq, hpos]
  refine ⟨hall, ?_, ?_⟩
  · have : (handleSelectAll s).selectAllText =
        if isAllSelected (updateDownloadButton
          { s with
            selectedImages := s.allImages.foldl setAdd s.selectedImages
            imageGrid := s.imageGrid.map (fun c => { c with selected := true }) })
        then "Deselect All" else "Select All" := by
      simp [handleSelectAll, hb, updateSelectAllButton]
    rw [this]
    have h2 : isAllSelected (updateDownloadButton
          { s with
            selectedImages := s.allImages.foldl setAdd s.selectedImages
            imageGrid := s.imageGrid.map (fun c => { c with selected := true }) }) = true := by
      simp [isAllSelected, updateDownloadButton, hp.length_eq, hpos]
    simp [h2]
  · simpa [handleSelectAll, hb, updateSelectAllButton, updateDownloadButton] using hp

/-- C4, as stated, fails: after a scrape answered with the same locator twice
the discovery list is not empty and the selection is not judged all-selected,
yet after the select-all branch of `handleSelectAll` the all-selected test is
false and the control still reads `Select All`. -/
theorem select_all_duplicates_counterexample :
    (run initialState duplicateSession).allImages = ["a", "a"] ∧
    isAllSelected (run initialState duplicateSession) = false ∧
    (handleSelectAll (run initialState duplicateSession)).selectedImages = ["a"] ∧
    isAllSelected (handleSelectAll (run initialState duplicateSession)) = false ∧
    (handleSelectAll (run initialState duplicateSession)).selectAllText = "Select All" := by
  decide

/-- C4, amended: in every reachable state whose discovery list is not empty
and has no repeated locator, and whose selection is not judged all-selected
(its size differs from the length of the discovery list), after
`handleSelectAll` the all-selected test is true, the control reads
`Deselect All`, and the selection holds exactly the discovered locators. -/
theorem select_all_makes_all_selected (ops : List Op)
    (hne : (run initialState ops).allImages ≠ [])
    (hnd : (run initialState ops).allImages.Nodup)
    (hnot : (run initialState ops).selectedImages.length ≠
      (run initialState ops).allImages.length) :
    isAllSelected (handleSelectAll (run initialState ops)) = true ∧
    (handleSelectAll (run initialState ops)).selectAllText = "Deselect All" ∧
    (handleSelectAll (run initialState ops)).selectedImages.Perm
      (run initialState ops).allImages :=
  select_all_consistent _ (consistent_run initialState ops consistent_initialState) hne hnd hnot

/-- Witness for C4: discovery `a, b` with `b` selected. -/
theorem select_all_makes_all_selected_witness :
    (run initialState
      [Op.scrape "x.test" (.ok ["a", "b"] (some "x")), Op.toggle 1]).allImages ≠ [] ∧
    (run initialState
      [Op.scrape "x.test" (.ok ["a", "b"] (some "x")), Op.toggle 1]).allImages.Nodup ∧
    (run initialState
      [Op.scrape "x.test" (.ok ["a", "b"] (some "x")), Op.toggle 1]).selectedImages.length ≠
      (run initialState
        [Op.scrape "x.test" (.ok ["a", "b"] (some "x")), Op.toggle 1]).allImages.length ∧
    isAllSelected (handleSelectAll (run initialState
      [Op.scrape "x.test" (.ok ["a", "b"] (some "x")), Op.toggle 1])) = true :=
  ⟨by decide, by decide, by decide,
    (select_all_makes_all_selected
      [Op.scrape "x.test" (.ok ["a", "b"] (some "x")), Op.toggle 1]
      (by decide) (by decide) (by decide)).1⟩

theorem foldl_setAdd_eq_append (xs set : List String) :
    ∃ added, xs.foldl setAdd set = set ++ added ∧ added.Sublist xs ∧ added.Nodup ∧
      ∀ y, y ∈ added ↔ y ∈ xs ∧ y ∉ set := by
  induction xs generalizing set with
  | nil => exact ⟨[], by simp, List.Sublist.refl _, List.nodup_nil, by simp⟩
  | cons x xs ih =>
    obtain ⟨added, h1, h2, h3, h4⟩ := ih (setAdd set x)
    by_cases hx : setHas set x = true
    · have hm : x ∈ set := (setHas_iff _ _).1 hx
      have hset : setAdd set x = set := by simp [setAdd, hx]
      rw [hset] at h1 h4
      refine ⟨added, by rw [List.foldl_cons, hset, h1], h2.cons x, h3, ?_⟩
      intro y
      rw [h4 y, List.mem_cons]
      constructor
      · rintro ⟨hy1, hy2⟩
        exact ⟨Or.inr hy1, hy2⟩
      · rintro ⟨hy1 | hy1, hy2⟩
        · exact absurd (hy1 ▸ hm) hy2
        · exact ⟨hy1, hy2⟩
    · have hm : x ∉ set := fun h => hx ((setHas_iff _ _).2 h)
      have hset : setAdd set x = set ++ [x] := by simp [setAdd, hx]
      rw [hset] at h1 h4
      have hxa : x ∉ added := by
        intro h
        have := ((h4 x).1 h).2
        simp at this
      refine ⟨x :: added, ?_, h2.cons₂ x, List.nodup_cons.2 ⟨hxa, h3⟩, ?_⟩
      · rw [List.foldl_cons, hset, h1]
        simp
      · intro y
        rw [List.mem_cons, h4 y, List.mem_cons, List.mem_append, List.mem_singleton]
        by_cases hy : y = x
        · subst hy
          simp [hm]
        · simp [hy]

theorem foldl_setAdd_of_nodup (xs set : List String) (h : xs.Nodup) :
    xs.foldl setAdd set = set ++ xs.filter (fun u => !setHas set u) := by
  induction xs generalizing set with
  | nil => simp
  | cons x xs ih =>
    have hx1 : x ∉ xs := (List.nodup_cons.1 h).1
    have hx2 : xs.Nodup := (List.nodup_cons.1 h).2
    rw [List.foldl_cons, ih _ hx2]
    by_cases hx : setHas set x = true
    · simp [setAdd, hx]
    · have hf : xs.filter (fun u => !setHas (set ++ [x]) u) =
          xs.filter (fun u => !setHas set u) := by
        apply List.filter_congr
        intro u hu
        have hne : u ≠ x := fun e => hx1 (e ▸ hu)
        simp [setHas, hne]
      simp [setAdd, hx, hf]

theorem clickCard_selectedImages (s : State) (card : Nat) (c : Card)
    (hc : s.imageGrid.get? card = some c) :
    (clickCard s card).selectedImages =
      if c.url ∈ s.selectedImages then s.selectedImages.filter (fun y => y != c.url)
      else s.selectedImages ++ [c.url] := by
  unfold clickCard
  rw [hc]
  by_cases hx : setHas s.selectedImages c.url = true
  · have hm : c.url ∈ s.selectedImages := (setHas_iff _ _).1 hx
    simp [toggleImageSelection, hx, hm, updateSelectAllButton, updateDownloadButton, setDelete]
  · have hm : c.url ∉ s.selectedImages := fun h => hx ((setHas_iff _ _).2 h)
    simp [toggleImageSelection, hx, hm, updateSelectAllButton, updateDownloadButton, setAdd]

/-- C5, as stated, fails: with discovery `a, b` and `b` selected before `a`,
the request lists `b, a`, while the selected locators in the order of
`allImages` are `a, b`; so it is not true that in every reachable state with a
non-empty selection the request lists the selection in discovery order. -/
theorem download_order_counterexample :
    (run initialState reversedSession).allImages = ["a", "b"] ∧
    (handleDownload (run initialState reversedSession) (.ok [80, 75])).2 =
      [Effect.postDownload ["b", "a"] "x", Effect.saveFile "images_x.zip" [80, 75]] ∧
    ¬ ∀ (ops : List Op) (outcome : DownloadOutcome),
      (run initialState ops).selectedImages ≠ [] →
      (handleDownload (run initialState ops) outcome).2.head? =
        some (Effect.postDownload
          ((run initialState ops).allImages.filter
            (fun u => setHas (run initialState ops).selectedImages u))
          (run initialState ops).currentHostname) := by
  refine ⟨by decide, by decide, ?_⟩
  intro h
  have h1 := h reversedSession (.ok [80, 75]) (by decide)
  revert h1
  decide

/-- C5, amended: in every reachable state with a non-empty selection the
request of `handleDownload` lists exactly the selected locators, each once, in
the order in which they were inserted into `selectedImages`, with
`currentHostname` as hostname, and on success the file delivered is named
`images_` + `currentHostname` + `.zip`.  Insertion order means: a click on the
card of an unselected locator puts it after all the selected ones, a click on
the card of a selected locator removes it and keeps the others in order, and
the select-all branch keeps the selected ones in order and puts after them
every discovered locator that was not selected, once, in discovery order
(when no locator is discovered twice: the discovery list without the selected
ones). -/
theorem download_request_insertion_order (ops : List Op) (outcome : DownloadOutcome)
    (hsel : (run initialState ops).selectedImages ≠ []) :
    (handleDownload (run initialState ops) outcome).2.head? =
      some (Effect.postDownload (run initialState ops).selectedImages
        (run initialState ops).currentHostname) ∧
    (run initialState ops).selectedImages.Nodup ∧
    (run initialState ops).selectedImages ⊆ (run initialState ops).allImages ∧
    (∀ payload, (handleDownload (run initialState ops) (.ok payload)).2 =
      [Effect.postDownload (run initialState ops).selectedImages
          (run initialState ops).currentHostname,
        Effect.saveFile ("images_" ++ (run initialState ops).currentHostname ++ ".zip")
          payload]) ∧
    (∀ card c, (run initialState ops).imageGrid.get? card = some c →
      (clickCard (run initialState ops) card).selectedImages =
        if c.url ∈ (run initialState ops).selectedImages then
          (run initialState ops).selectedImages.filter (fun y => y != c.url)
        else (run initialState ops).selectedImages ++ [c.url]) ∧
    ((run initialState ops).selectedImages.length ≠ (run initialState ops).allImages.length →
      ∃ added, (handleSelectAll (run initialState ops)).selectedImages =
          (run initialState ops).selectedImages ++ added ∧
        added.Sublist (run initialState ops).allImages ∧
        added.Nodup ∧
        ∀ y, y ∈ added ↔
          y ∈ (run initialState ops).allImages ∧ y ∉ (run initialState ops).selectedImages) ∧
    ((run initialState ops).selectedImages.length ≠ (run initialState ops).allImages.length →
      (run initialState ops).allImages.Nodup →
      (handleSelectAll (run initialState ops)).selectedImages =
        (run initialState ops).selectedImages ++
          (run initialState ops).allImages.filter
            (fun u => !setHas (run initialState ops).selectedImages u)) := by
  have hc := consistent_run initialState ops consistent_initialState
  refine ⟨?_, hc.nodup, hc.subset, ?_, ?_, ?_, ?_⟩
  · rw [handleDownload_sent _ _ hsel]
    rfl
  · intro payload
    rw [handleDownload_sent _ _ hsel]
    rfl
  · intro card c hget
    exact clickCard_selectedImages _ card c hget
  · intro hnot
    have hb : ((run initialState ops).selectedImages.length ==
        (run initialState ops).allImages.length) = false := by simpa using hnot
    obtain ⟨added, h1, h2, h3, h4⟩ := foldl_setAdd_eq_append (run initialState ops).allImages
      (run initialState ops).selectedImages
    refine ⟨added, ?_, h2, h3, h4⟩
    simpa [handleSelectAll, hb, updateSelectAllButton, updateDownloadButton] using h1
  · intro hnot hnd
    have hb : ((run initialState ops).selectedImages.length ==
        (run initialState ops).allImages.length) = false := by simpa using hnot
    have h1 := foldl_setAdd_of_nodup (run initialState ops).allImages
      (run initialState ops).selectedImages hnd
    simpa [handleSelectAll, hb, updateSelectAllButton, updateDownloadButton] using h1

/-- Witness for C5: discovery `a, b, c` with `c` selected before `a`.  The
request lists `c, a`; a click on the card of `b` or select-all gives `c, a, b`. -/
theorem download_request_insertion_order_witness :
    (run initialState outOfOrderSession).selectedImages ≠ [] ∧
    (run initialState outOfOrderSession).allImages = ["a", "b", "c"] ∧
    (handleDownload (run initialState outOfOrderSession) (.ok [80, 75])).2 =
      [Effect.postDownload ["c", "a"] "x", Effect.saveFile "images_x.zip" [80, 75]] ∧
    (clickCard (run initialState outOfOrderSession) 1).selectedImages = ["c", "a", "b"] ∧
    (clickCard (run initialState outOfOrderSession) 2).selectedImages = ["a"] ∧
    (handleSelectAll (run initialState outOfOrderSession)).selectedImages = ["c", "a", "b"] :=
  ⟨by decide, by decide,
    (download_request_insertion_order outOfOrderSession (.ok [80, 75])
      (by decide)).2.2.2.1 [80, 75],
    (download_request_insertion_order outOfOrderSession (.ok [80, 75])
      (by decide)).2.2.2.2.1 1 ⟨"b", false⟩ rfl,
    (download_request_insertion_order outOfOrderSession (.ok [80, 75])
      (by decide)).2.2.2.2.1 2 ⟨"c", true⟩ rfl,
    (download_request_insertion_order outOfOrderSession (.ok [80, 75])
      (by decide)).2.2.2.2.2.2 (by decide) (by decide)⟩

/-! ### The download control -/

theorem mirrors_initialState : Mirrors initialState :=
  ⟨rfl, rfl⟩

theorem mirrors_toggleImageSelection (s : State) (card : Nat) (imageUrl : String) :
    Mirrors (toggleImageSelection s card imageUrl) := by
  unfold toggleImageSelection
  by_cases hx : setHas s.selectedImages imageUrl = true <;>
    simp [hx, Mirrors, updateSelectAllButton, updateDownloadButton]

theorem mirrors_handleSelectAll (s : State) : Mirrors (handleSelectAll s) := by
  unfold handleSelectAll
  by_cases hx : (s.selectedImages.length == s.allImages.length) = true <;>
    simp [hx, Mirrors, updateSelectAllButton, updateDownloadButton]

theorem mirrors_handleDownload (s : State) (outcome : DownloadOutcome) (h : Mirrors s) :
    Mirrors (handleDownload s outcome).1 := by
  by_cases hsel : s.selectedImages = []
  · simpa [handleDownload, downloadStart, hsel] using h
  · rw [handleDownload_sent s outcome hsel]
    have hlen : (s.selectedImages.length == 0) = false := by
      cases hs : s.selectedImages with
      | nil => exact absurd hs hsel
      | cons a l => rfl
    obtain ⟨_, h2⟩ := h
    cases outcome <;>
      exact ⟨by simp [downloadResume, setLoading, showError, hlen],
        by simpa [downloadResume, setLoading, showError] using h2⟩

/-- The only operation after which the download control can fail to mirror
the selection is a scrape: a scrape keeps the property when its outcome is not
a success with images, or when nothing was selected before it. -/
theorem mirrors_handleScrape (s : State) (rawUrl : String) (outcome : ScrapeOutcome)
    (h : Mirrors s)
    (hsafe : (∀ I host, outcome = .ok I host → I = []) ∨ s.selectedImages = []) :
    Mirrors (handleScrape s rawUrl outcome).1 := by
  by_cases hurl : trim rawUrl = ""
  · simpa [handleScrape, scrapeStart, hurl, showError, Mirrors] using h
  · rw [handleScrape_sent s rawUrl outcome hurl]
    cases outcome with
    | failed message =>
      simpa [scrapeResume, showError, setLoading, clearError, Mirrors] using h
    | unparsed ok message =>
      simpa [scrapeResume, showError, setLoading, clearError, Mirrors] using h
    | notOk error =>
      simpa [scrapeResume, showError, setLoading, clearError, Mirrors] using h
    | ok images hostname =>
      by_cases hi : images = []
      · subst hi
        simpa [scrapeResume, showError, setLoading, clearError, Mirrors] using h
      · have hs : s.selectedImages = [] := by
          rcases hsafe with h1 | h1
          · exact absurd (h1 images hostname rfl) hi
          · exact h1
        have hlen : (images.length == 0) = false := by
          cases images with
          | nil => exact absurd rfl hi
          | cons a l => rfl
        have h' := h
        simp only [Mirrors, hs] at h'
        simpa [scrapeResume, hlen, setLoading, clearError, Mirrors, updateResultsCount,
          renderImages] using h'

/-- C9, evaluated where the code departs from it: a scrape answered with `a`,
a click on the card of `a`, then a scrape answered with `b`.  The selection is
empty, yet the download control is enabled and reads `Download Selected (1)`. -/
theorem rescrape_leaves_download_control_stale :
    Mirrors (run initialState (rescrapeSession.take 2)) ∧
    (run initialState rescrapeSession).selectedImages = [] ∧
    (run initialState rescrapeSession).downloadDisabled = false ∧
    (run initialState rescrapeSession).downloadText = "Download Selected (1)" ∧
    ¬ Mirrors (run initialState rescrapeSession) := by
  decide

/-! ### The error text -/

/-- What the two handlers do to the error text around a successful request:
`handleScrape` empties it before the request and leaves it empty after a
success with images; `handleDownload` sends its request and finishes with the
error text it found. -/
theorem errorMessage_around_request (s : State) :
    (∀ rawUrl, trim rawUrl ≠ "" →
      ∃ s1 url, scrapeStart s rawUrl = Sum.inr (s1, url) ∧ s1.errorMessage = "") ∧
    (∀ rawUrl I host, trim rawUrl ≠ "" → I ≠ [] →
      (handleScrape s rawUrl (.ok I host)).1.errorMessage = "") ∧
    (s.selectedImages ≠ [] →
      (∃ s1 images hostname, downloadStart s = some (s1, images, hostname) ∧
        s1.errorMessage = s.errorMessage) ∧
      ∀ payload, (handleDownload s (.ok payload)).1.errorMessage = s.errorMessage) := by
  refine ⟨?_, ?_, ?_⟩
  · intro rawUrl hurl
    simp [scrapeStart, hurl, setLoading, clearError]
  · intro rawUrl I host hurl hI
    have hlen : (I.length == 0) = false := by
      cases I with
      | nil => exact absurd rfl hI
      | cons a l => rfl
    rw [handleScrape_sent s rawUrl _ hurl]
    simp [scrapeResume, hlen, setLoading, clearError, updateResultsCount, renderImages]
  · intro hsel
    have hlen : (s.selectedImages.length == 0) = false := by
      cases hs : s.selectedImages with
      | nil => exact absurd hs hsel
      | cons a l => rfl
    refine ⟨?_, ?_⟩
    · simp [downloadStart, hlen, setLoading]
    · intro payload
      rw [handleDownload_sent s _ hsel]
      rfl

/-- C10, evaluated where the code departs from it: after a scrape answered
with `a`, a click on the card of `a` and a scrape answered with no image, the
error text is `No images found on this page` and `a` is selected; a download
that succeeds then sends its request with that error text in place, delivers
the file, and ends with the same error text. -/
theorem download_keeps_stale_error :
    (run initialState emptyRescrapeSession).selectedImages = ["a"] ∧
    (run initialState emptyRescrapeSession).errorMessage = "No images found on this page" ∧
    (downloadStart (run initialState emptyRescrapeSession)).map
        (fun r => r.1.errorMessage) = some "No images found on this page" ∧
    (handleDownload (run initialState emptyRescrapeSession) (.ok [80, 75])).2 =
      [Effect.postDownload ["a"] "x", Effect.saveFile "images_x.zip" [80, 75]] ∧
    (handleDownload (run initialState emptyRescrapeSession) (.ok [80, 75])).1.errorMessage =
      "No images found on this page" := by
  decide

end ImageExtractor
